import Mathlib

/-!
Shallow embedding of `src/NewAccount.py` (a single bank account with a
transaction log, comparison operators and a context-managed passbook
writer), together with theorems checking the natural-language
specification against it.

Modelling conventions:
* Python floats are modelled as `ℚ` (exact arithmetic).
* `datetime.datetime.now()` is nondeterministic, so every operation that
  logs a timestamp takes the timestamp string as an explicit argument.
* The process-wide class variable `Account.account_number` is modelled as
  explicit state: functions that read or bump it take the current counter
  value and return the new one.
* `print` side effects are modelled by returning the distinguishing part
  of the printed text where a claim depends on it.
-/

/-- One entry of `_transactions_log`: the tuple
`(kind, timestamp, balance-before, signed amount, balance-after)`
appended by `deposit` and `withdraw`. -/
structure TransactionRecord where
  kind : String
  timestamp : String
  balanceBefore : ℚ
  amount : ℚ
  balanceAfter : ℚ
deriving DecidableEq, Repr

/-- The `Account` instance state: `_holders_name`, `_balance`,
`_transactions_log`, `_acc_number`, plus the iterator fields
`pos` and `max` set by `__init__`. -/
structure Account where
  holders_name : String
  balance : ℚ
  transactions_log : List TransactionRecord
  acc_number : ℕ
  pos : ℕ
  max : ℕ
deriving DecidableEq, Repr

/-- Initial value of the class variable `Account.account_number`. -/
def accountNumberStart : ℕ := 328710100001

/-- `Account.get_next_account_number`: returns `Account.account_number + 1`
without modifying the counter. -/
def get_next_account_number (counter : ℕ) : ℕ := counter + 1

/-- `Account.__init__(self, name, balance=500.00)`: the new account takes
the current counter value as its number, starts with an empty log, and the
counter is incremented for the next customer.  Returns the constructed
account and the new counter value. -/
def Account.init (name : String) (balance : ℚ) (counter : ℕ) : Account × ℕ :=
  ({ holders_name := name
     balance := balance
     transactions_log := []
     acc_number := counter
     pos := 0
     max := 0 }, counter + 1)

/-- `Account.deposit(self, amount)`: rejects `amount <= 0`, otherwise adds
the amount and appends a CREDIT tuple
`("CREDIT", now, self._balance - amount, amount, self._balance)`
(computed after the balance update, as in the source). -/
def Account.deposit (a : Account) (ts : String) (amount : ℚ) : Account × Bool :=
  if amount ≤ 0 then (a, false)
  else
    let b := a.balance + amount
    ({ a with
        balance := b
        transactions_log := a.transactions_log ++
          [{ kind := "CREDIT", timestamp := ts,
             balanceBefore := b - amount, amount := amount, balanceAfter := b }] },
     true)

/-- `Account.withdraw(self, amount)`: succeeds when
`self._balance - amount >= 0`, subtracts the amount and appends a DEBIT
tuple `("DEBIT ", now, self._balance + amount, -amount, self._balance)`
(computed after the balance update, as in the source); otherwise returns
`False` with no mutation.  There is no positivity check on `amount`. -/
def Account.withdraw (a : Account) (ts : String) (amount : ℚ) : Account × Bool :=
  if 0 ≤ a.balance - amount then
    let b := a.balance - amount
    ({ a with
        balance := b
        transactions_log := a.transactions_log ++
          [{ kind := "DEBIT ", timestamp := ts,
             balanceBefore := b + amount, amount := -amount, balanceAfter := b }] },
     true)
  else (a, false)

/-- `Account.__le__`: `True` iff `self._balance <= other._balance`. -/
def Account.le (a other : Account) : Bool :=
  if a.balance ≤ other.balance then true else false

/-- `Account.__ge__`: `True` iff `self._balance >= other._balance`. -/
def Account.ge (a other : Account) : Bool :=
  if other.balance ≤ a.balance then true else false

/-- `Account.__lt__` only prints; the message names `self._holders_name`
when `self._balance < other._balance` and `other._holders_name` otherwise.
This returns the holder name that the printed message starts with. -/
def Account.lt_namePrinted (a other : Account) : String :=
  if a.balance < other.balance then a.holders_name else other.holders_name

/-- `Account.__gt__` only prints; the message names `self._holders_name`
when `self._balance > other._balance` and `other._holders_name` otherwise.
This returns the holder name that the printed message starts with. -/
def Account.gt_namePrinted (a other : Account) : String :=
  if other.balance < a.balance then a.holders_name else other.holders_name

/-- `Account.__eq__`: `True` iff `self._acc_number == other._acc_number`. -/
def Account.eq (a other : Account) : Bool :=
  if a.acc_number = other.acc_number then true else false

/-- `Account.__ne__`: `True` iff `self._acc_number != other._acc_number`. -/
def Account.ne (a other : Account) : Bool :=
  if a.acc_number ≠ other.acc_number then true else false

/-- `Account.__reversed__`: `list(reversed(self._transactions_log))`. -/
def Account.reversedLog (a : Account) : List TransactionRecord :=
  a.transactions_log.reverse

/-- Sum of the signed amounts recorded in a transaction log. -/
def logSum : List TransactionRecord → ℚ
  | [] => 0
  | r :: rest => r.amount + logSum rest

/-- One call of the driver-visible mutators: a deposit or a withdrawal,
with its timestamp and amount. -/
inductive Op where
  | dep (ts : String) (amount : ℚ)
  | wd (ts : String) (amount : ℚ)
deriving DecidableEq, Repr

/-- Apply one deposit/withdraw call, keeping only the account state
(the boolean result is dropped, as when the caller ignores it). -/
def Account.applyOp (a : Account) : Op → Account
  | .dep ts amount => (a.deposit ts amount).1
  | .wd ts amount => (a.withdraw ts amount).1

/-- Apply a finite sequence of deposit/withdraw calls in order. -/
def Account.applyOps (a : Account) (ops : List Op) : Account :=
  ops.foldl Account.applyOp a

/-- Construct one account per `(name, balance)` pair in order, threading
the shared counter exactly as repeated `Account(...)` calls do.  Returns
the accounts in construction order and the final counter value. -/
def constructAll : List (String × ℚ) → ℕ → List Account × ℕ
  | [], c => ([], c)
  | (n, b) :: rest, c =>
    let p := Account.init n b c
    let q := constructAll rest p.2
    (p.1 :: q.1, q.2)

/-- A file handle as `open(name, mode)` produces it: identified by the
name and mode it was opened with, plus whether `close()` has been
called on it. -/
structure FileHandle where
  name : String
  mode : String
  closed : Bool
deriving DecidableEq, Repr

/-- `open(self.file_name, self.file_mode)`: a fresh, not-yet-closed handle. -/
def openFile (name mode : String) : FileHandle :=
  { name := name, mode := mode, closed := false }

/-- `file.close()`. -/
def FileHandle.close (f : FileHandle) : FileHandle :=
  { f with closed := true }

/-- `TransactionWriter` state: `self.file`, `self.file_name`,
`self.file_mode`. -/
structure TransactionWriter where
  file : Option FileHandle
  file_name : String
  file_mode : String
deriving DecidableEq, Repr

/-- `TransactionWriter.__init__(self, name, mode)`: `self.file = None`. -/
def TransactionWriter.construct (name mode : String) : TransactionWriter :=
  { file := none, file_name := name, file_mode := mode }

/-- `TransactionWriter.__enter__`: opens the file with the stored name and
mode, stores it in `self.file` and returns it to the `with` body. -/
def TransactionWriter.enter (tw : TransactionWriter) :
    TransactionWriter × FileHandle :=
  let f := openFile tw.file_name tw.file_mode
  ({ tw with file := some f }, f)

/-- `TransactionWriter.__exit__(self, exc_type, exc_value, exc_tb)`:
closes `self.file` only when `exc_type == None`; on an exception it only
prints and leaves the handle open.  `excType` is `none` on the
no-exception path. -/
def TransactionWriter.scopeExit (tw : TransactionWriter)
    (excType : Option String) : TransactionWriter :=
  match excType with
  | none => { tw with file := tw.file.map FileHandle.close }
  | some _ => tw

/-- One full `with TransactionWriter(name, mode) as f: body` run, where
`bodyExc` is the exception the body raised (`none` if it completed
normally).  Returns the handle the body received and the final writer
state. -/
def runPassbookScope (name mode : String) (bodyExc : Option String) :
    FileHandle × TransactionWriter :=
  let e := (TransactionWriter.construct name mode).enter
  (e.2, e.1.scopeExit bodyExc)

/-! ## Helper lemmas -/

theorem logSum_append (l1 l2 : List TransactionRecord) :
    logSum (l1 ++ l2) = logSum l1 + logSum l2 := by
  induction l1 with
  | nil => simp [logSum]
  | cons r rest ih => simp [logSum, ih]; ring

theorem applyOp_invariant (a : Account) (b0 : ℚ)
    (h : a.balance = b0 + logSum a.transactions_log) (op : Op) :
    (a.applyOp op).balance = b0 + logSum (a.applyOp op).transactions_log := by
  cases op with
  | dep ts amount =>
    simp only [Account.applyOp, Account.deposit]
    split
    · exact h
    · simp [logSum_append, logSum, h]; ring
  | wd ts amount =>
    simp only [Account.applyOp, Account.withdraw]
    split
    · simp [logSum_append, logSum, h]; ring
    · exact h

theorem applyOps_invariant (ops : List Op) (a : Account) (b0 : ℚ)
    (h : a.balance = b0 + logSum a.transactions_log) :
    (a.applyOps ops).balance = b0 + logSum (a.applyOps ops).transactions_log := by
  induction ops generalizing a with
  | nil => simpa [Account.applyOps] using h
  | cons op rest ih =>
    simpa [Account.applyOps, List.foldl_cons] using
      ih (a.applyOp op) (applyOp_invariant a b0 h op)

/-! ## Claims -/

/-- C1: for every account and every finite sequence of deposit/withdraw
calls with arbitrary amounts, the resulting balance equals the initial
balance plus the sum of the signed amounts recorded in the transaction
log; failed calls contribute nothing. -/
theorem balance_eq_initial_plus_logSum (name : String) (b0 : ℚ) (c : ℕ)
    (ops : List Op) :
    ((Account.init name b0 c).1.applyOps ops).balance
      = b0 + logSum ((Account.init name b0 c).1.applyOps ops).transactions_log := by
  apply applyOps_invariant
  simp [Account.init, logSum]

/-- C2: `withdraw(amount)` succeeds exactly when `balance - amount >= 0`;
on success it subtracts the amount, appends one DEBIT record with signed
amount `-amount` bracketing the change, and returns true; otherwise it
returns false and mutates nothing. -/
theorem withdraw_spec (a : Account) (ts : String) (amount : ℚ) :
    ((a.withdraw ts amount).2 = true ↔ 0 ≤ a.balance - amount)
    ∧ (0 ≤ a.balance - amount →
        (a.withdraw ts amount).1.balance = a.balance - amount
        ∧ (a.withdraw ts amount).1.transactions_log
            = a.transactions_log ++
              [{ kind := "DEBIT ", timestamp := ts,
                 balanceBefore := a.balance, amount := -amount,
                 balanceAfter := a.balance - amount }])
    ∧ (¬ 0 ≤ a.balance - amount →
        (a.withdraw ts amount).1 = a ∧ (a.withdraw ts amount).2 = false) := by
  refine ⟨?_, ?_, ?_⟩
  · unfold Account.withdraw
    split <;> simp_all
  · intro h
    unfold Account.withdraw
    rw [if_pos h]
    have hb : a.balance - amount + amount = a.balance := by ring
    exact ⟨rfl, by simp only [hb]⟩
  · intro h
    unfold Account.withdraw
    rw [if_neg h]
    exact ⟨rfl, rfl⟩

/-- Witness for C2 at a concrete account: withdrawing 3000 from balance
10500 succeeds with new balance 7500, and withdrawing 100000 from 500
fails without mutation. -/
theorem withdraw_spec_witness :
    (({ holders_name := "Guido", balance := 10500, transactions_log := [],
        acc_number := 328710100001, pos := 0, max := 0 : Account }.withdraw
          "t" 3000).1.balance = 10500 - 3000)
    ∧ (({ holders_name := "X", balance := 500, transactions_log := [],
          acc_number := 328710100002, pos := 0, max := 0 : Account }.withdraw
            "t" 100000).1
        = { holders_name := "X", balance := 500, transactions_log := [],
            acc_number := 328710100002, pos := 0, max := 0 }) := by
  constructor
  · exact ((withdraw_spec
      { holders_name := "Guido", balance := 10500, transactions_log := [],
        acc_number := 328710100001, pos := 0, max := 0 } "t" 3000).2.1
      (by norm_num)).1
  · exact ((withdraw_spec
      { holders_name := "X", balance := 500, transactions_log := [],
        acc_number := 328710100002, pos := 0, max := 0 } "t" 100000).2.2
      (by norm_num)).1

/-- C3: `deposit(amount)` with `amount <= 0` returns false and mutates
nothing; with `amount > 0` it adds the amount, appends exactly one CREDIT
record capturing balance-before, amount and balance-after, and returns
true. -/
theorem deposit_spec (a : Account) (ts : String) (amount : ℚ) :
    ((a.deposit ts amount).2 = true ↔ 0 < amount)
    ∧ (amount ≤ 0 →
        (a.deposit ts amount).1 = a ∧ (a.deposit ts amount).2 = false)
    ∧ (0 < amount →
        (a.deposit ts amount).1.balance = a.balance + amount
        ∧ (a.deposit ts amount).1.transactions_log
            = a.transactions_log ++
              [{ kind := "CREDIT", timestamp := ts,
                 balanceBefore := a.balance, amount := amount,
                 balanceAfter := a.balance + amount }]) := by
  refine ⟨?_, ?_, ?_⟩
  · unfold Account.deposit
    split <;> simp_all
  · intro h
    unfold Account.deposit
    rw [if_pos h]
    exact ⟨rfl, rfl⟩
  · intro h
    unfold Account.deposit
    rw [if_neg (by linarith : ¬ amount ≤ 0)]
    have hb : a.balance + amount - amount = a.balance := by ring
    exact ⟨rfl, by simp only [hb]⟩

/-- Witness for C3 at concrete inputs: depositing 500 onto balance 10000
succeeds with new balance 10500; depositing -5 mutates nothing and
returns false. -/
theorem deposit_spec_witness :
    (({ holders_name := "Guido", balance := 10000, transactions_log := [],
        acc_number := 328710100001, pos := 0, max := 0 : Account }.deposit
          "t" 500).1.balance = 10000 + 500)
    ∧ (({ holders_name := "Guido", balance := 10000, transactions_log := [],
          acc_number := 328710100001, pos := 0, max := 0 : Account }.deposit
            "t" (-5)).2 = false) := by
  constructor
  · exact ((deposit_spec
      { holders_name := "Guido", balance := 10000, transactions_log := [],
        acc_number := 328710100001, pos := 0, max := 0 } "t" 500).2.2
      (by norm_num)).1
  · exact ((deposit_spec
      { holders_name := "Guido", balance := 10000, transactions_log := [],
        acc_number := 328710100001, pos := 0, max := 0 } "t" (-5)).2.1
      (by norm_num)).2

/-- C4: for `amount <= 0` with `balance - amount >= 0`, `withdraw(amount)`
returns true, the balance becomes `balance - amount` (so it does not
decrease: a non-positive withdrawal acts as a deposit), and a DEBIT record
with signed amount `-amount` is appended — `withdraw` performs no
positivity check. -/
theorem withdraw_nonpositive_acts_as_deposit (a : Account) (ts : String)
    (amount : ℚ) (hamt : amount ≤ 0) (hbal : 0 ≤ a.balance - amount) :
    (a.withdraw ts amount).2 = true
    ∧ (a.withdraw ts amount).1.balance = a.balance - amount
    ∧ a.balance ≤ (a.withdraw ts amount).1.balance
    ∧ (a.withdraw ts amount).1.transactions_log
        = a.transactions_log ++
          [{ kind := "DEBIT ", timestamp := ts,
             balanceBefore := a.balance, amount := -amount,
             balanceAfter := a.balance - amount }] := by
  have hb : a.balance - amount + amount = a.balance := by ring
  unfold Account.withdraw
  rw [if_pos hbal]
  exact ⟨rfl, rfl, by dsimp only; linarith, by simp only [hb]⟩

/-- Witness for C4: withdrawing -100 from balance 500 "succeeds" and
raises the balance to 600. -/
theorem withdraw_nonpositive_acts_as_deposit_witness :
    (({ holders_name := "X", balance := 500, transactions_log := [],
        acc_number := 328710100001, pos := 0, max := 0 : Account }.withdraw
          "t" (-100)).2 = true)
    ∧ (({ holders_name := "X", balance := 500, transactions_log := [],
          acc_number := 328710100001, pos := 0, max := 0 : Account }.withdraw
            "t" (-100)).1.balance = 500 - (-100)) := by
  have h := withdraw_nonpositive_acts_as_deposit
    { holders_name := "X", balance := 500, transactions_log := [],
      acc_number := 328710100001, pos := 0, max := 0 } "t" (-100)
    (by norm_num) (by norm_num)
  exact ⟨h.1, h.2.1⟩

theorem constructAll_snd (inputs : List (String × ℚ)) (c : ℕ) :
    (constructAll inputs c).2 = c + inputs.length := by
  induction inputs generalizing c with
  | nil => simp [constructAll]
  | cons p rest ih =>
    obtain ⟨n, b⟩ := p
    simp [constructAll, Account.init, ih]
    omega

theorem constructAll_fst_length (inputs : List (String × ℚ)) (c : ℕ) :
    (constructAll inputs c).1.length = inputs.length := by
  induction inputs generalizing c with
  | nil => simp [constructAll]
  | cons p rest ih =>
    obtain ⟨n, b⟩ := p
    simp [constructAll, Account.init, ih]

theorem constructAll_number (inputs : List (String × ℚ)) (c : ℕ) (i : ℕ)
    (h : i < (constructAll inputs c).1.length) :
    ((constructAll inputs c).1.get ⟨i, h⟩).acc_number = c + i := by
  induction inputs generalizing c i with
  | nil => simp [constructAll] at h
  | cons p rest ih =>
    obtain ⟨n, b⟩ := p
    cases i with
    | zero => simp [constructAll, Account.init]
    | succ j =>
      have h2 : j < (constructAll rest (c + 1)).1.length := by
        simpa [constructAll, Account.init] using h
      have key := ih (c + 1) j h2
      simp [constructAll, Account.init] at key ⊢
      omega

/-- C5: with the shared counter starting at 328710100001, each
construction in a sequence gets a number strictly greater than every
earlier one (so all numbers are distinct), and the counter is bumped
exactly once per construction. -/
theorem account_numbers_strictly_increasing (inputs : List (String × ℚ)) :
    ((constructAll inputs accountNumberStart).2
        = accountNumberStart + inputs.length)
    ∧ ∀ (i j : ℕ) (hi : i < (constructAll inputs accountNumberStart).1.length)
        (hj : j < (constructAll inputs accountNumberStart).1.length),
        i < j →
        ((constructAll inputs accountNumberStart).1.get ⟨i, hi⟩).acc_number
          < ((constructAll inputs accountNumberStart).1.get ⟨j, hj⟩).acc_number := by
  refine ⟨constructAll_snd inputs accountNumberStart, ?_⟩
  intro i j hi hj hij
  rw [constructAll_number inputs accountNumberStart i hi,
    constructAll_number inputs accountNumberStart j hj]
  omega

/-- Witness for C5: constructing two accounts in sequence from the seed
gives the second a strictly larger number than the first. -/
theorem account_numbers_strictly_increasing_witness :
    ((constructAll [("Guido", 10000), ("Meghna", 5000)]
        accountNumberStart).1.get ⟨0, by decide⟩).acc_number
    < ((constructAll [("Guido", 10000), ("Meghna", 5000)]
        accountNumberStart).1.get ⟨1, by decide⟩).acc_number :=
  (account_numbers_strictly_increasing
    [("Guido", 10000), ("Meghna", 5000)]).2 0 1 (by decide) (by decide)
    (by decide)

/-- C10: `get_next_account_number()` returns the counter plus one, while
the next constructed account gets the counter value itself; the returned
value is the number of the construction after the next one, never of the
next one. -/
theorem get_next_account_number_off_by_one (c : ℕ) (name name2 : String)
    (b b2 : ℚ) :
    get_next_account_number c = c + 1
    ∧ (Account.init name b c).1.acc_number = c
    ∧ get_next_account_number c ≠ (Account.init name b c).1.acc_number
    ∧ (Account.init name2 b2 (Account.init name b c).2).1.acc_number
        = get_next_account_number c := by
  refine ⟨rfl, rfl, ?_, rfl⟩
  simp [get_next_account_number, Account.init]

/-- Witness for C10 at the seed counter value. -/
theorem get_next_account_number_off_by_one_witness :
    get_next_account_number accountNumberStart
      ≠ (Account.init "Guido" 10000 accountNumberStart).1.acc_number :=
  (get_next_account_number_off_by_one accountNumberStart "Guido" "Meghna"
    10000 5000).2.2.1

/-- C6: the handle the body receives is the one opened from the stored
name and mode; on normal completion the stored handle is closed on exit;
if the body raises, the exit logic does not close it. -/
theorem passbook_scope_close_asymmetry (name mode : String)
    (exc : Option String) :
    (runPassbookScope name mode exc).1 = openFile name mode
    ∧ (runPassbookScope name mode exc).1.closed = false
    ∧ (exc = none →
        (runPassbookScope name mode exc).2.file
          = some ((runPassbookScope name mode exc).1.close))
    ∧ (exc ≠ none →
        (runPassbookScope name mode exc).2.file
          = some (runPassbookScope name mode exc).1
        ∧ ((runPassbookScope name mode exc).2.file.map FileHandle.closed)
            = some false) := by
  cases exc <;>
    simp [runPassbookScope, TransactionWriter.construct,
      TransactionWriter.enter, TransactionWriter.scopeExit, openFile,
      FileHandle.close]

/-- Witness for C6: on the no-exception path the stored handle ends
closed; when the body raised an OSError the stored handle is the still
open one the body received. -/
theorem passbook_scope_close_asymmetry_witness :
    ((runPassbookScope "passbookA.txt" "w" none).2.file
        = some ((runPassbookScope "passbookA.txt" "w" none).1.close))
    ∧ ((runPassbookScope "passbookA.txt" "w" (some "OSError")).2.file
        = some (runPassbookScope "passbookA.txt" "w" (some "OSError")).1) := by
  constructor
  · exact (passbook_scope_close_asymmetry "passbookA.txt" "w" none).2.2.1 rfl
  · exact ((passbook_scope_close_asymmetry "passbookA.txt" "w"
      (some "OSError")).2.2.2 (by simp)).1

/-- C7: `reversedLog()` is the exact reverse of the chronological log
(element `i` of the result is element `n - 1 - i` of the log), and
reversing the reversed log yields the original log. -/
theorem reversedLog_spec (a : Account) :
    a.reversedLog = a.transactions_log.reverse
    ∧ a.reversedLog.reverse = a.transactions_log
    ∧ ∀ (i : ℕ) (h1 : i < a.reversedLog.length)
        (h2 : a.transactions_log.length - 1 - i < a.transactions_log.length),
        a.reversedLog.get ⟨i, h1⟩
          = a.transactions_log.get ⟨a.transactions_log.length - 1 - i, h2⟩ := by
  refine ⟨rfl, List.reverse_reverse _, ?_⟩
  intro i h1 h2
  simp only [Account.reversedLog, List.get_eq_getElem]
  rw [List.getElem_reverse]

/-- Witness for C7 on a two-entry log: the head of the reversed log is
the chronologically last record. -/
theorem reversedLog_spec_witness :
    ({ holders_name := "Guido", balance := 7500,
       transactions_log :=
         [{ kind := "CREDIT", timestamp := "t1", balanceBefore := 10000,
            amount := 500, balanceAfter := 10500 },
          { kind := "DEBIT ", timestamp := "t2", balanceBefore := 10500,
            amount := -3000, balanceAfter := 7500 }],
       acc_number := 328710100001, pos := 0, max := 0 : Account }.reversedLog.get
        ⟨0, by decide⟩).timestamp = "t2" := by
  have h := (reversedLog_spec
    { holders_name := "Guido", balance := 7500,
      transactions_log :=
        [{ kind := "CREDIT", timestamp := "t1", balanceBefore := 10000,
           amount := 500, balanceAfter := 10500 },
         { kind := "DEBIT ", timestamp := "t2", balanceBefore := 10500,
           amount := -3000, balanceAfter := 7500 }],
      acc_number := 328710100001, pos := 0, max := 0 }).2.2 0 (by decide)
    (by decide)
  rw [h]
  rfl

/-- C8: `__le__` and `__ge__` decide the balance order, any two accounts
are comparable (totality), and the printed strict comparisons `__lt__`
and `__gt__` are consistent with that order: each names the account the
order selects. -/
theorem balance_comparisons_total_order (a b : Account) :
    (a.le b = true ↔ a.balance ≤ b.balance)
    ∧ (a.ge b = true ↔ b.balance ≤ a.balance)
    ∧ (a.le b = true ∨ b.le a = true)
    ∧ (a.balance < b.balance → a.lt_namePrinted b = a.holders_name)
    ∧ (b.balance ≤ a.balance → a.lt_namePrinted b = b.holders_name)
    ∧ (b.balance < a.balance → a.gt_namePrinted b = a.holders_name)
    ∧ (a.balance ≤ b.balance → a.gt_namePrinted b = b.holders_name) := by
  refine ⟨?_, ?_, ?_, ?_, ?_, ?_, ?_⟩
  · unfold Account.le
    split <;> simp_all
  · unfold Account.ge
    split <;> simp_all
  · unfold Account.le
    rcases le_total a.balance b.balance with h | h
    · left
      rw [if_pos h]
    · right
      rw [if_pos h]
  · intro h
    unfold Account.lt_namePrinted
    rw [if_pos h]
  · intro h
    unfold Account.lt_namePrinted
    rw [if_neg (not_lt.mpr h)]
  · intro h
    unfold Account.gt_namePrinted
    rw [if_pos h]
  · intro h
    unfold Account.gt_namePrinted
    rw [if_neg (not_lt.mpr h)]

/-- Witness for C8: with balances 5000 and 6500, `__lt__` on the poorer
account names the poorer holder, and the two `__le__` directions agree
with the balances. -/
theorem balance_comparisons_total_order_witness :
    ({ holders_name := "Meghna", balance := 5000, transactions_log := [],
       acc_number := 328710100002, pos := 0, max := 0 : Account }.lt_namePrinted
      { holders_name := "Guido", balance := 6500, transactions_log := [],
        acc_number := 328710100001, pos := 0, max := 0 } = "Meghna")
    ∧ ({ holders_name := "Meghna", balance := 5000, transactions_log := [],
         acc_number := 328710100002, pos := 0, max := 0 : Account }.le
        { holders_name := "Guido", balance := 6500, transactions_log := [],
          acc_number := 328710100001, pos := 0, max := 0 } = true) := by
  constructor
  · exact (balance_comparisons_total_order
      { holders_name := "Meghna", balance := 5000, transactions_log := [],
        acc_number := 328710100002, pos := 0, max := 0 }
      { holders_name := "Guido", balance := 6500, transactions_log := [],
        acc_number := 328710100001, pos := 0, max := 0 }).2.2.2.1 (by norm_num)
  · exact (balance_comparisons_total_order
      { holders_name := "Meghna", balance := 5000, transactions_log := [],
        acc_number := 328710100002, pos := 0, max := 0 }
      { holders_name := "Guido", balance := 6500, transactions_log := [],
        acc_number := 328710100001, pos := 0, max := 0 }).1.mpr (by norm_num)

/-- C9: `__eq__` is true iff the account numbers match; it is true on an
account compared with itself, and false for any two independently
constructed accounts (which get distinct numbers) even if their balances
coincide. -/
theorem equals_iff_same_account_number (a b : Account) :
    (a.eq b = true ↔ a.acc_number = b.acc_number)
    ∧ (a.ne b = true ↔ a.acc_number ≠ b.acc_number)
    ∧ a.eq a = true
    ∧ ∀ (n1 n2 : String) (b1 b2 : ℚ) (c : ℕ),
        (Account.init n1 b1 c).1.eq
          (Account.init n2 b2 (Account.init n1 b1 c).2).1 = false := by
  refine ⟨?_, ?_, ?_, ?_⟩
  · unfold Account.eq
    split <;> simp_all
  · unfold Account.ne
    split <;> simp_all
  · unfold Account.eq
    rw [if_pos rfl]
  · intro n1 n2 b1 b2 c
    have hne : (Account.init n1 b1 c).1.acc_number
        ≠ (Account.init n2 b2 (Account.init n1 b1 c).2).1.acc_number := by
      show c ≠ c + 1
      omega
    unfold Account.eq
    rw [if_neg hne]

/-- Witness for C9: two accounts constructed in sequence with identical
balances compare unequal, and an account equals itself. -/
theorem equals_iff_same_account_number_witness :
    ((Account.init "A" 5000 accountNumberStart).1.eq
        (Account.init "B" 5000
          (Account.init "A" 5000 accountNumberStart).2).1 = false)
    ∧ ((Account.init "A" 5000 accountNumberStart).1.eq
        (Account.init "A" 5000 accountNumberStart).1 = true) := by
  constructor
  · exact (equals_iff_same_account_number
      (Account.init "A" 5000 accountNumberStart).1
      (Account.init "A" 5000 accountNumberStart).1).2.2.2 "A" "B" 5000 5000
      accountNumberStart
  · exact (equals_iff_same_account_number
      (Account.init "A" 5000 accountNumberStart).1
      (Account.init "A" 5000 accountNumberStart).1).2.2.1
